import Mathlib

/-!
Verification model of the Compendium client (`src/compendium.ts`).

The class `Compendium` is embedded shallowly as a state type `CState` and
pure state-transition functions, one per method.  Network I/O (the
`CompendiumApiClient` calls) and wall-clock reads (`Date.now()`) are
modelled by explicit parameters: each operation takes the outcome of the
external call it performs (`Except String _`) and the instants at which
`Date.now()` is read.  `localStorage` under the single key is modelled as
an `Option Blob` field of the state; the serialized JSON object is
modelled as an association list of field-name/value pairs so that the
exact field names written and read are preserved.  Emitted events and
calls made to the remote client are recorded in ghost log fields
(`events`, `syncCalls`, `refreshCalls`).  JavaScript exceptions are
modelled as `Except.error` carrying the message string; `async` methods
invoked fire-and-forget run their synchronous part up to the first
`await`, which is modelled by a separate function for that part.
-/

deriving instance DecidableEq for Except

namespace Compendium

/-- Identity per the spec data model: opaque token plus user and guild
descriptors.  The concrete shape lives in the external `bot_api` module;
the fields here are opaque strings. -/
structure Identity where
  token : String
  user : String
  guild : String
  deriving DecidableEq

/-- One tech entry: `{ level, ts }`, written by `setTechLevel` as
`{ level, ts: Date.now() }`. -/
structure TechRecord where
  level : Nat
  ts : Nat
  deriving DecidableEq

/-- `TechLevels`: mapping tech id (a JS number key) to `TechRecord`,
modelled as an association list. -/
def TechLevels : Type := List (Nat × TechRecord)

instance : DecidableEq TechLevels := by
  unfold TechLevels
  infer_instance

/-- `SyncData` from `bot_api`: `{ ver, inSync, techLevels }`. -/
structure SyncData where
  ver : Nat
  inSync : Nat
  techLevels : TechLevels
  deriving DecidableEq

/-- `Record<string, SyncData>`: the profile registry, keyed by alt name. -/
def Registry : Type := List (String × SyncData)

instance : DecidableEq Registry := by
  unfold Registry
  infer_instance

/-- Association-list lookup, modelling JS object property access
(`obj[k]`, `undefined` becoming `none`). -/
def findA {K A : Type} [DecidableEq K] : List (K × A) → K → Option A
  | [], _ => none
  | (k2, v) :: rest, k => if k2 = k then some v else findA rest k

/-- Association-list update, modelling JS property assignment
(`obj[k] = v`): replaces an existing binding, otherwise appends. -/
def putA {K A : Type} [DecidableEq K] : List (K × A) → K → A → List (K × A)
  | [], k, v => [(k, v)]
  | (k2, v2) :: rest, k, v =>
      if k2 = k then (k, v) :: rest else (k2, v2) :: putA rest k v

/-- The fresh `ProfileSyncState` created lazily:
`{ ver: 1, inSync: 1, techLevels: {} }`. -/
def defaultSync : SyncData := { ver := 1, inSync := 1, techLevels := [] }

/-- The default registry `{ 'default': { ver: 1, inSync: 1, techLevels: {} } }`
used by `writeStorage` and `readStorage` when the registry is absent. -/
def defaultRegistry : Registry := [("default", defaultSync)]

/-- `if (!this.syncData[alt]) this.syncData[alt] = {ver:1, inSync:1, techLevels:{}}`:
get-or-create for one profile entry. -/
def ensureEntry (reg : Registry) (alt : String) : Registry :=
  match findA reg alt with
  | some _ => reg
  | none => putA reg alt defaultSync

/-- A JSON value stored in a field of the serialized snapshot object.
Only the shapes that actually occur in snapshots are modelled: an
identity object, a profile registry object, a number, and JSON `null`
(a falsy non-object, also covering other falsy field values). -/
inductive JVal where
  | jId (i : Identity)
  | jReg (r : Registry)
  | jNum (n : Nat)
  | jNull
  deriving DecidableEq

/-- The raw blob under the storage key: either text that `JSON.parse`
rejects (carrying the parse-error message), or text parsing to a falsy
value, or a JSON object given by its fields. -/
inductive Blob where
  | malformed (msg : String)
  | jnull
  | obj (fields : List (String × JVal))
  deriving DecidableEq

/-- A runtime value held by the `ident` field of the class.  The source
never validates the shape of a stored identity beyond JavaScript
truthiness (`if (stored && stored.ident)`), so a restored value is
either a well-formed `Identity` object (`wf`) or some other truthy JSON
value read back from storage (`raw`) — e.g. a nonzero number or a
wrong-shaped object.  `raw` values only ever arise from the truthy
branch of `identOfJVal`, so they stand for truthy non-identity data. -/
inductive IdentVal where
  | wf (i : Identity)
  | raw (v : JVal)
  deriving DecidableEq

/-- JavaScript truthiness of a JSON value assigned to `this.ident`:
`null` and `0` are falsy; identity objects, registry-shaped objects and
nonzero numbers are truthy.  Falsy values take the corrupt path
(`none`); truthy ones are restored as they are. -/
def identOfJVal : JVal → Option IdentVal
  | JVal.jId i => some (IdentVal.wf i)
  | JVal.jNull => none
  | JVal.jNum 0 => none
  | JVal.jNum (n + 1) => some (IdentVal.raw (JVal.jNum (n + 1)))
  | JVal.jReg r => some (IdentVal.raw (JVal.jReg r))

/-- Serialization of the `ident` field by `writeStorage`
(`ident: this.ident` writes whatever value the field holds). -/
def jvalOfIdent : IdentVal → JVal
  | IdentVal.wf i => JVal.jId i
  | IdentVal.raw v => v

/-- `this.ident.token` as passed to `refreshConnection`: the token for a
well-formed identity; the missing property (`undefined`, modelled as the
empty string) for a malformed one. -/
def identToken : IdentVal → String
  | IdentVal.wf i => i.token
  | IdentVal.raw _ => ""

/-- Events emitted on the `EventEmitter`.  `connected` carries
`this.ident`, a nullable field, hence `Option IdentVal`. -/
inductive Event where
  | connected (i : Option IdentVal)
  | disconnected
  | connectfailed (msg : String)
  | sync (t : TechLevels)
  deriving DecidableEq

/-- The mutable state of a `Compendium` instance, plus the storage cell
and ghost logs of emitted events and outgoing client calls.
`syncCalls` records each `client.sync(alt, token, mode, techLevels)`
call as `(alt, mode, submitted techLevels)`; `refreshCalls` records each
`client.refreshConnection(token)` call by its token. -/
structure CState where
  ident : Option IdentVal
  lastRefresh : Nat
  lastTokenRefresh : Nat
  syncData : Option Registry
  selectedAlt : String
  storage : Option Blob
  events : List Event
  syncCalls : List (String × String × TechLevels)
  refreshCalls : List String
  deriving DecidableEq

/-- `this.emit(e)`: append to the ghost event log. -/
def emitEvent (st : CState) (e : Event) : CState :=
  { st with events := st.events ++ [e] }

/-- `Compendium.clearData`: remove the storage key and reset identity,
both timestamps and the registry.  (`selectedAlt` is not reset.) -/
def clearData (st : CState) : CState :=
  { st with storage := none, ident := none, lastTokenRefresh := 0,
            lastRefresh := 0, syncData := none }

/-- `REFRESH_MS = 5 * 60 * 1000`. -/
def REFRESH_MS : Nat := 5 * 60 * 1000

/-- `Compendium.writeStorage`: no-op without an identity; otherwise
serializes `{ ident, userData: syncData ?? default, refresh: lastRefresh,
tokenRefresh: lastTokenRefresh }` under the storage key. -/
def writeStorage (st : CState) : CState :=
  match st.ident with
  | none => st
  | some iv =>
      { st with storage := some (Blob.obj
          [("ident", jvalOfIdent iv),
           ("userData", JVal.jReg (st.syncData.getD defaultRegistry)),
           ("refresh", JVal.jNum st.lastRefresh),
           ("tokenRefresh", JVal.jNum st.lastTokenRefresh)]) }

/-- Field read `stored.syncData ?? defaultRegistry` in `readStorage`:
a registry when the field holds one, the default otherwise. -/
def regField (fs : List (String × JVal)) : Registry :=
  match findA fs "syncData" with
  | some (JVal.jReg r) => r
  | _ => defaultRegistry

/-- Field read `Number(stored.k ?? 0)` in `readStorage`. -/
def numField (fs : List (String × JVal)) (k : String) : Nat :=
  match findA fs k with
  | some (JVal.jNum n) => n
  | _ => 0

/-- `Compendium.readStorage`: key absent clears and returns null;
unparsable content, a falsy parse result, or an absent/falsy `ident`
field clears, emits `connectfailed` and returns null.  Otherwise the
source checks `stored.ident` only for truthiness, so any truthy value —
well-formed or not — is restored together with the fields the reader
looks for (`syncData`, `refresh`, `lastTokenRefresh`) and returned. -/
def readStorage (st : CState) : CState × Option IdentVal :=
  match st.storage with
  | none => (clearData st, none)
  | some (Blob.malformed m) =>
      (emitEvent (clearData st) (Event.connectfailed m), none)
  | some Blob.jnull =>
      (emitEvent (clearData st) (Event.connectfailed "Data corrupt"), none)
  | some (Blob.obj fs) =>
      match (findA fs "ident").bind identOfJVal with
      | some iv =>
          ({ st with ident := some iv,
                     syncData := some (regField fs),
                     lastRefresh := numField fs "refresh",
                     lastTokenRefresh := numField fs "lastTokenRefresh" },
           some iv)
      | none =>
          (emitEvent (clearData st) (Event.connectfailed "Data corrupt"), none)

/-- The synchronous part of `Compendium.syncUserData`, up to and
including issuing `client.sync`: reads the selected alt, throws
`not connected` without an identity, lazily creates the registry and the
profile entry, and records the outgoing call. -/
def syncPrepare (st : CState) (mode : String) : CState × Except String Unit :=
  match st.ident with
  | none => (st, Except.error "Cannot sync user data - not connected")
  | some _ =>
      let alt := st.selectedAlt
      let reg := ensureEntry (st.syncData.getD []) alt
      let submitted := ((findA reg alt).map SyncData.techLevels).getD []
      ({ st with syncData := some reg,
                 syncCalls := st.syncCalls ++ [(alt, mode, submitted)] },
       Except.ok ())

/-- The success continuation of `syncUserData`: replace the profile's
record with the server response, stamp `lastRefresh`, persist, and emit
`sync` with the new tech levels. -/
def syncComplete (st : CState) (resp : SyncData) (now : Nat) : CState :=
  let st1 := { st with
      syncData := some (putA (st.syncData.getD []) st.selectedAlt resp),
      lastRefresh := now }
  emitEvent (writeStorage st1) (Event.sync resp.techLevels)

/-- `Compendium.syncUserData(mode)` with the outcome of the
`client.sync` call passed in as `resp` and the post-response
`Date.now()` as `now`.  A failed call is rethrown wrapped as
`Failed to sync data: <cause>` (the model's cause string standing for
the rendered `${error}`). -/
def syncUserData (st : CState) (mode : String) (resp : Except String SyncData)
    (now : Nat) : CState × Except String Unit :=
  match syncPrepare st mode with
  | (st1, Except.error e) => (st1, Except.error e)
  | (st1, Except.ok _) =>
      match resp with
      | Except.error e => (st1, Except.error ("Failed to sync data: " ++ e))
      | Except.ok s => (syncComplete st1 s now, Except.ok ())

/-- `Compendium.getTechLevels`: the selected profile's tech levels, or
`undefined` when disconnected or the profile has no record yet. -/
def getTechLevels (st : CState) : Option TechLevels :=
  match st.ident with
  | none => none
  | some _ =>
      match st.syncData with
      | none => none
      | some reg => (findA reg st.selectedAlt).map SyncData.techLevels

/-- `Compendium.getUser`: `this.ident?.user` (`undefined`, i.e. `none`,
when the field holds a malformed restored value with no such property). -/
def getUser (st : CState) : Option String :=
  match st.ident with
  | some (IdentVal.wf i) => some i.user
  | _ => none

/-- `Compendium.getGuild`: `this.ident?.guild` (`undefined` for a
malformed restored value). -/
def getGuild (st : CState) : Option String :=
  match st.ident with
  | some (IdentVal.wf i) => some i.guild
  | _ => none

/-- `Compendium.setTechLevel(techId, level)`.  `lookupTech` is the
static lookup `getTechFromIndex` from the external `module_types`
module (spec: a pure function techId to techName, empty string marking
an invalid id).  `tSet` is the `Date.now()` stamped into the mutated
`TechRecord`; `resp` and `tSync` feed the trailing `syncUserData('sync')`. -/
def setTechLevel (lookupTech : Nat → String) (st : CState)
    (techId level : Nat) (resp : Except String SyncData)
    (tSet tSync : Nat) : CState × Except String Unit :=
  match st.ident with
  | none => (st, Except.error "not connected")
  | some _ =>
      if lookupTech techId = "" then (st, Except.error "Invalid tech id")
      else
        let alt := st.selectedAlt
        let reg := ensureEntry (st.syncData.getD []) alt
        let entry := (findA reg alt).getD defaultSync
        let newRec : TechRecord := { level := level, ts := tSet }
        let reg2 := putA reg alt { entry with techLevels := putA entry.techLevels techId newRec }
        syncUserData { st with syncData := some reg2 } "sync" resp tSync

/-- `Compendium.switchAlt(alt)`: sets the selected profile and calls
`syncUserData('get')` without awaiting it.  This function is the state
reached when `switchAlt` returns: the async sync has run its synchronous
part (`syncPrepare`) up to the `client.sync` await; the response is
applied later via `syncComplete` when it arrives. -/
def switchAlt (st : CState) (alt : String) : CState :=
  (syncPrepare { st with selectedAlt := alt } "get").1

/-- `Compendium.connect(ident)`: clears local state, exchanges the
identity (`connectResp` the outcome of `client.connect`), emits
`connected`, stamps `lastTokenRefresh := tTok`, persists, then runs an
initial `'get'` sync (`syncResp`, completing at `tSync`). -/
def connect (st : CState) (connectResp : Except String Identity)
    (syncResp : Except String SyncData) (tTok tSync : Nat) :
    CState × Except String Unit :=
  let st1 := clearData st
  match connectResp with
  | Except.error e => (st1, Except.error e)
  | Except.ok i =>
      let st2 := emitEvent { st1 with ident := some (IdentVal.wf i) }
        (Event.connected (some (IdentVal.wf i)))
      let st3 := writeStorage { st2 with lastTokenRefresh := tTok }
      syncUserData st3 "get" syncResp tSync

/-- `Compendium.logout`: emit `disconnected`, then clear local state. -/
def logout (st : CState) : CState :=
  clearData (emitEvent st Event.disconnected)

/-- `Compendium.tick`: one firing of the background timer.  The token
staleness branch in the source is commented out; the live code only
checks `Date.now() - lastRefresh > REFRESH_MS` and syncs the selected
profile.  `tNow` is the `Date.now()` of the check, `tSync` the
completion instant of the sync. -/
def tick (st : CState) (tNow tSync : Nat) (resp : Except String SyncData) :
    CState × Except String Unit :=
  match st.ident with
  | none => (st, Except.ok ())
  | some _ =>
      if REFRESH_MS < tNow - st.lastRefresh then
        syncUserData st "sync" resp tSync
      else (st, Except.ok ())

/-- `Compendium.initialize` (the state-relevant part; arming the timer
is not modelled).  Reads storage; when an identity is recovered, ensures
the selected profile's entry, syncs (`'sync'` when the entry has data,
`'get'` otherwise), on a first-time empty profile additionally refreshes
the token (`refreshResp`, with `lastTokenRefresh := tTok`) and persists,
then emits `connected`.  Failures of the awaited calls escape.
This helper is the body of the `if (this.ident)` block, entered with the
state `st1` left by `readStorage`. -/
def initConnected (st1 : CState) (syncResp : Except String SyncData)
    (refreshResp : Except String Identity) (tSync tTok : Nat) :
    CState × Except String Unit :=
  let reg := ensureEntry (st1.syncData.getD []) st1.selectedAlt
  let st2 := { st1 with syncData := some reg }
  let entry := (findA reg st2.selectedAlt).getD defaultSync
  let hasData := !entry.techLevels.isEmpty
  match syncUserData st2 (if hasData then "sync" else "get") syncResp tSync with
  | (st3, Except.error e) => (st3, Except.error e)
  | (st3, Except.ok _) =>
      if hasData then
        (emitEvent st3 (Event.connected st3.ident), Except.ok ())
      else
        let st4 := { st3 with refreshCalls :=
            st3.refreshCalls ++ [(st3.ident.map identToken).getD ""] }
        match refreshResp with
        | Except.error e => (st4, Except.error e)
        | Except.ok j =>
            let st5 := writeStorage
              { st4 with ident := some (IdentVal.wf j), lastTokenRefresh := tTok }
            (emitEvent st5 (Event.connected st5.ident), Except.ok ())

/-- `Compendium.initialize` (the state-relevant part; arming the timer
is not modelled): reads storage and, when an identity was recovered,
continues with `initConnected`. -/
def initializeComp (st : CState) (syncResp : Except String SyncData)
    (refreshResp : Except String Identity) (tSync tTok : Nat) :
    CState × Except String Unit :=
  match (readStorage st).2 with
  | none => ((readStorage st).1, Except.ok ())
  | some _ => initConnected (readStorage st).1 syncResp refreshResp tSync tTok

/-- The disconnected-state invariant: without an identity there is no
registry and both timestamps are zero. -/
def disconnectedClean (st : CState) : Prop :=
  st.ident = none →
    st.syncData = none ∧ st.lastRefresh = 0 ∧ st.lastTokenRefresh = 0

instance (st : CState) : Decidable (disconnectedClean st) := by
  unfold disconnectedClean
  infer_instance

/-- An association-list update is seen by a lookup at the same key. -/
theorem findA_putA_self {K A : Type} [DecidableEq K]
    (l : List (K × A)) (k : K) (v : A) : findA (putA l k v) k = some v := by
  induction l with
  | nil => simp [putA, findA]
  | cons hd tl ih =>
      obtain ⟨k2, v2⟩ := hd
      by_cases hk : k2 = k
      · simp [putA, hk, findA]
      · simp [putA, hk, findA, ih]

/-- `writeStorage` only touches the storage cell. -/
theorem writeStorage_fields (st : CState) :
    (writeStorage st).ident = st.ident ∧
    (writeStorage st).syncData = st.syncData ∧
    (writeStorage st).lastRefresh = st.lastRefresh ∧
    (writeStorage st).lastTokenRefresh = st.lastTokenRefresh ∧
    (writeStorage st).selectedAlt = st.selectedAlt ∧
    (writeStorage st).events = st.events ∧
    (writeStorage st).syncCalls = st.syncCalls ∧
    (writeStorage st).refreshCalls = st.refreshCalls := by
  cases h : st.ident <;> simp [writeStorage, h]

/-- A state holding an identity satisfies the disconnected invariant
vacuously. -/
theorem clean_of_ident_some (st : CState) (iv : IdentVal)
    (h : st.ident = some iv) : disconnectedClean st := by
  intro h2
  rw [h] at h2
  exact Option.noConfusion h2

/-- `clearData` establishes the disconnected invariant. -/
theorem clearData_clean (st : CState) : disconnectedClean (clearData st) := by
  intro _
  simp [clearData]

/-- `syncUserData` never changes the identity. -/
theorem syncUserData_ident_eq (st : CState) (mode : String)
    (resp : Except String SyncData) (now : Nat) :
    ((syncUserData st mode resp now).1).ident = st.ident := by
  cases h : st.ident <;> cases resp <;>
    simp [syncUserData, syncPrepare, syncComplete, emitEvent, writeStorage, h]

/-- `syncUserData` never changes the token-refresh timestamp or the
refresh-call log. -/
theorem syncUserData_token_fields (st : CState) (mode : String)
    (resp : Except String SyncData) (now : Nat) :
    ((syncUserData st mode resp now).1).lastTokenRefresh = st.lastTokenRefresh ∧
    ((syncUserData st mode resp now).1).refreshCalls = st.refreshCalls := by
  cases h : st.ident <;> cases resp <;>
    simp [syncUserData, syncPrepare, syncComplete, emitEvent, writeStorage, h]

/-- A sample identity used for concrete evaluations. -/
def baseIdent : Identity := { token := "tok", user := "u", guild := "g" }

/-- A sample connected state: one profile `"a"` with one tech entry,
nonzero timestamps, `"default"` selected. -/
def connectedState : CState :=
  { ident := some (IdentVal.wf baseIdent),
    lastRefresh := 100,
    lastTokenRefresh := 5,
    syncData := some [("a", { ver := 2, inSync := 3,
                              techLevels := [(7, { level := 4, ts := 50 })] })],
    selectedAlt := "default",
    storage := none,
    events := [],
    syncCalls := [],
    refreshCalls := [] }

/-- The state of a freshly constructed, never-connected instance. -/
def initialState : CState :=
  { ident := none, lastRefresh := 0, lastTokenRefresh := 0,
    syncData := none, selectedAlt := "default", storage := none,
    events := [], syncCalls := [], refreshCalls := [] }

/-- Claim C8: with no active identity, `writeStorage` is a no-op — it
writes nothing to storage and leaves the whole state unchanged, so a
disconnected session is never persisted. -/
theorem writeStorage_noop_disconnected (st : CState) (h : st.ident = none) :
    writeStorage st = st := by
  simp [writeStorage, h]

/-- Witness for C8 at the initial state. -/
theorem writeStorage_noop_disconnected_witness :
    writeStorage initialState = initialState :=
  writeStorage_noop_disconnected initialState rfl

/-- Claim C9: with no active identity, `setTechLevel` fails with the
not-connected error and leaves the state untouched, for every static
lookup function and tech id — in particular also when the tech id is
invalid, so the invalid-tech error can only be observed while
connected. -/
theorem setTechLevel_checks_connection_first (lookupTech : Nat → String)
    (st : CState) (techId level : Nat) (resp : Except String SyncData)
    (tSet tSync : Nat) (h : st.ident = none) :
    setTechLevel lookupTech st techId level resp tSet tSync =
      (st, Except.error "not connected") ∧
    (setTechLevel lookupTech st techId level resp tSet tSync).2 ≠
      Except.error "Invalid tech id" := by
  constructor
  · simp [setTechLevel, h]
  · simp [setTechLevel, h]

/-- Witness for C9: a disconnected state and a lookup on which the tech
id is also invalid still yields the not-connected error. -/
theorem setTechLevel_checks_connection_first_witness :
    setTechLevel (fun _ => "") initialState 999 3 (Except.ok defaultSync) 1 2 =
      (initialState, Except.error "not connected") ∧
    (setTechLevel (fun _ => "") initialState 999 3 (Except.ok defaultSync) 1 2).2 ≠
      Except.error "Invalid tech id" :=
  setTechLevel_checks_connection_first (fun _ => "") initialState 999 3
    (Except.ok defaultSync) 1 2 rfl

/-- Claim C5: while connected, `setTechLevel` on a tech id the static
lookup does not resolve fails with the invalid-tech error and returns
the state unchanged — no registry, timestamp, storage or event change,
and no call recorded against the remote client. -/
theorem setTechLevel_invalid_tech (lookupTech : Nat → String) (st : CState)
    (iv : IdentVal) (techId level : Nat) (resp : Except String SyncData)
    (tSet tSync : Nat) (hc : st.ident = some iv)
    (hbad : lookupTech techId = "") :
    setTechLevel lookupTech st techId level resp tSet tSync =
      (st, Except.error "Invalid tech id") := by
  simp [setTechLevel, hc, hbad]

/-- Witness for C5 at a concrete connected state. -/
theorem setTechLevel_invalid_tech_witness :
    setTechLevel (fun _ => "") connectedState 999 3 (Except.ok defaultSync) 1 2 =
      (connectedState, Except.error "Invalid tech id") :=
  setTechLevel_invalid_tech (fun _ => "") connectedState
    (IdentVal.wf baseIdent) 999 3 (Except.ok defaultSync) 1 2 rfl rfl

/-- Claim C7: while connected, switching to a never-seen profile name
makes `getTechLevels` return the empty mapping (not the absent value):
the profile entry is created lazily with empty tech levels in the
synchronous part of `switchAlt`, before any network response. -/
theorem switchAlt_lazy_empty (st : CState) (iv : IdentVal) (alt : String)
    (hc : st.ident = some iv)
    (hnew : findA (st.syncData.getD []) alt = none) :
    getTechLevels (switchAlt st alt) = some ([] : TechLevels) := by
  simp [switchAlt, syncPrepare, hc, getTechLevels, ensureEntry, hnew,
        findA_putA_self, defaultSync]

/-- Witness for C7: switching to the unseen profile `"brandnew"`. -/
theorem switchAlt_lazy_empty_witness :
    getTechLevels (switchAlt connectedState "brandnew") = some ([] : TechLevels) :=
  switchAlt_lazy_empty connectedState (IdentVal.wf baseIdent) "brandnew" rfl
    (by decide)

/-- Claim C3: a successful sync exchange returning record `s` for the
selected profile replaces that profile's record wholesale — afterwards
`getTechLevels` returns exactly `s.techLevels`, the registry holds `s`
itself, and `lastRefresh` is stamped with the completion time `now`. -/
theorem sync_success_replaces (st : CState) (iv : IdentVal) (s : SyncData)
    (mode : String) (now : Nat) (h : st.ident = some iv) :
    (syncUserData st mode (Except.ok s) now).2 = Except.ok () ∧
    getTechLevels (syncUserData st mode (Except.ok s) now).1 =
      some s.techLevels ∧
    findA (((syncUserData st mode (Except.ok s) now).1).syncData.getD [])
      st.selectedAlt = some s ∧
    ((syncUserData st mode (Except.ok s) now).1).lastRefresh = now := by
  simp [syncUserData, syncPrepare, h, syncComplete, getTechLevels,
        emitEvent, writeStorage, findA_putA_self]

/-- Witness for C3: syncing the connected state with a concrete server
record. -/
theorem sync_success_replaces_witness :
    (syncUserData connectedState "sync"
        (Except.ok { ver := 9, inSync := 1,
                     techLevels := [(3, { level := 2, ts := 60 })] }) 777).2 =
      Except.ok () ∧
    getTechLevels (syncUserData connectedState "sync"
        (Except.ok { ver := 9, inSync := 1,
                     techLevels := [(3, { level := 2, ts := 60 })] }) 777).1 =
      some [(3, { level := 2, ts := 60 })] ∧
    findA (((syncUserData connectedState "sync"
          (Except.ok { ver := 9, inSync := 1,
                       techLevels := [(3, { level := 2, ts := 60 })] }) 777).1).syncData.getD [])
      connectedState.selectedAlt =
      some { ver := 9, inSync := 1, techLevels := [(3, { level := 2, ts := 60 })] } ∧
    ((syncUserData connectedState "sync"
        (Except.ok { ver := 9, inSync := 1,
                     techLevels := [(3, { level := 2, ts := 60 })] }) 777).1).lastRefresh = 777 :=
  sync_success_replaces connectedState (IdentVal.wf baseIdent)
    { ver := 9, inSync := 1, techLevels := [(3, { level := 2, ts := 60 })] }
    "sync" 777 rfl

/-- A blob the reader rejects: unparsable text, a falsy parse result, or
an object whose `ident` field is absent or falsy.  An object with a
truthy but malformed `ident` value is NOT rejected by the source (it
checks truthiness only), so it is not corrupt in this sense. -/
def blobCorrupt : Blob → Bool
  | Blob.malformed _ => true
  | Blob.jnull => true
  | Blob.obj fs => ((findA fs "ident").bind identOfJVal).isNone

/-- The message carried by the `connectfailed` event on a rejected blob:
the parse-error message for unparsable text, `Data corrupt` otherwise. -/
def corruptMsg : Blob → String
  | Blob.malformed m => m
  | _ => "Data corrupt"

/-- A state whose stored blob parses to an object whose `ident` field
is the number 5: truthy, but not a well-formed identity. -/
def garbageIdentState : CState :=
  { connectedState with
    storage := some (Blob.obj [("ident", JVal.jNum 5)]) }

/-- Counterexample to claim C6 as stated: a persisted blob that parses
but lacks a well-formed identity (its `ident` field is the number 5) is
NOT treated as corrupt — `readStorage` restores the truthy garbage
value, clears nothing, removes nothing from storage, emits no
`connectfailed`, and returns a non-null identity value.  The source
checks `stored.ident` only for truthiness. -/
theorem readStorage_truthy_garbage_counterexample :
    (readStorage garbageIdentState).2 = some (IdentVal.raw (JVal.jNum 5)) ∧
    ((readStorage garbageIdentState).1).ident =
      some (IdentVal.raw (JVal.jNum 5)) ∧
    ((readStorage garbageIdentState).1).events = garbageIdentState.events ∧
    ((readStorage garbageIdentState).1).storage = garbageIdentState.storage ∧
    ((readStorage garbageIdentState).1).syncData = some defaultRegistry ∧
    (readStorage garbageIdentState).2 ≠ none := by
  decide

/-- Claim C6 as amended: on a present blob that fails to parse, parses
falsy, or whose `ident` field is absent or falsy, `readStorage` clears
all local state (identity, registry, both timestamps, the stored key),
emits `connectfailed` exactly once, and returns no identity; composed
into `initializeComp` this path returns normally, so no exception
escapes `initialize`.  (A truthy but malformed `ident` is not detected:
see the counterexample.) -/
theorem readStorage_corrupt_recovers (st : CState) (b : Blob)
    (sr : Except String SyncData) (rr : Except String Identity)
    (tSync tTok : Nat) (hs : st.storage = some b)
    (hb : blobCorrupt b = true) :
    readStorage st =
      (emitEvent (clearData st) (Event.connectfailed (corruptMsg b)), none) ∧
    ((readStorage st).1).ident = none ∧
    ((readStorage st).1).syncData = none ∧
    ((readStorage st).1).lastRefresh = 0 ∧
    ((readStorage st).1).lastTokenRefresh = 0 ∧
    ((readStorage st).1).storage = none ∧
    ((readStorage st).1).events =
      st.events ++ [Event.connectfailed (corruptMsg b)] ∧
    (initializeComp st sr rr tSync tTok).2 = Except.ok () := by
  cases b with
  | malformed m =>
      refine ⟨?_, ?_⟩
      · simp [readStorage, hs, corruptMsg]
      · simp [readStorage, hs, corruptMsg, emitEvent, clearData,
              initializeComp]
  | jnull =>
      refine ⟨?_, ?_⟩
      · simp [readStorage, hs, corruptMsg]
      · simp [readStorage, hs, corruptMsg, emitEvent, clearData,
              initializeComp]
  | obj fs =>
      have hf : (findA fs "ident").bind identOfJVal = none := by
        simpa [blobCorrupt, Option.isNone_iff_eq_none] using hb
      refine ⟨?_, ?_⟩
      · simp [readStorage, hs, hf, corruptMsg]
      · simp [readStorage, hs, hf, corruptMsg, emitEvent, clearData,
              initializeComp]

/-- A state whose stored blob is text that does not parse as JSON. -/
def corruptStorageState : CState :=
  { connectedState with storage := some (Blob.malformed "Unexpected token") }

/-- Witness for C6 at a concrete state with unparsable stored text. -/
theorem readStorage_corrupt_recovers_witness :
    readStorage corruptStorageState =
      (emitEvent (clearData corruptStorageState)
        (Event.connectfailed (corruptMsg (Blob.malformed "Unexpected token"))),
       none) ∧
    ((readStorage corruptStorageState).1).ident = none ∧
    ((readStorage corruptStorageState).1).syncData = none ∧
    ((readStorage corruptStorageState).1).lastRefresh = 0 ∧
    ((readStorage corruptStorageState).1).lastTokenRefresh = 0 ∧
    ((readStorage corruptStorageState).1).storage = none ∧
    ((readStorage corruptStorageState).1).events =
      corruptStorageState.events ++
        [Event.connectfailed (corruptMsg (Blob.malformed "Unexpected token"))] ∧
    (initializeComp corruptStorageState (Except.ok defaultSync)
      (Except.ok baseIdent) 1 2).2 = Except.ok () :=
  have h := readStorage_corrupt_recovers corruptStorageState
    (Blob.malformed "Unexpected token") (Except.ok defaultSync)
    (Except.ok baseIdent) 1 2 rfl rfl
  ⟨h.1, h.2.1, h.2.2.1, h.2.2.2.1, h.2.2.2.2.1, h.2.2.2.2.2.1,
   h.2.2.2.2.2.2.1, h.2.2.2.2.2.2.2⟩

/-- Claim C1 (code bug): `writeStorage` stores the registry under the
field `userData` and the token timestamp under `tokenRefresh`, but
`readStorage` reads the fields `syncData` and `lastTokenRefresh`.  At a
connected state with a nonempty registry and a nonzero token timestamp,
the write/read round trip silently resets the registry to the default
and the token timestamp to zero; only `lastRefresh` survives. -/
theorem roundtrip_loses_registry_and_token_time :
    ((readStorage (writeStorage connectedState)).1).syncData =
      some defaultRegistry ∧
    ((readStorage (writeStorage connectedState)).1).lastTokenRefresh = 0 ∧
    ((readStorage (writeStorage connectedState)).1).lastRefresh =
      connectedState.lastRefresh ∧
    (readStorage (writeStorage connectedState)).2 =
      some (IdentVal.wf baseIdent) ∧
    ((readStorage (writeStorage connectedState)).1).syncData ≠
      connectedState.syncData ∧
    ((readStorage (writeStorage connectedState)).1).lastTokenRefresh ≠
      connectedState.lastTokenRefresh := by
  decide

/-- A connected state that has just synced, with a badly stale token:
at check instant 8000000000 the token is more than 90 days old while the
last sync is 1 ms old. -/
def staleTokenState : CState :=
  { connectedState with lastRefresh := 7999999999 }

/-- Counterexample to claim C2: at a tick where the identity is active
and the time since `lastTokenRefresh` exceeds 90 days (7776000000 ms),
the tick performs no token refresh at all — the state is returned
entirely unchanged (no refresh call, no timestamp update, no
persistence, no `connectfailed`), because the refresh branch is
commented out in the source. -/
theorem tick_stale_token_counterexample :
    7776000000 < 8000000000 - staleTokenState.lastTokenRefresh ∧
    staleTokenState.ident = some (IdentVal.wf baseIdent) ∧
    tick staleTokenState 8000000000 8000000001 (Except.ok defaultSync) =
      (staleTokenState, Except.ok ()) := by
  decide

/-- Claim C2 as amended: the background tick never attempts a token
refresh and never changes `lastTokenRefresh`, regardless of staleness;
with an active identity it performs exactly a `'sync'` of the selected
profile when more than five minutes have passed since `lastRefresh`,
and does nothing otherwise. -/
theorem tick_never_refreshes_token (st : CState) (tNow tSync : Nat)
    (resp : Except String SyncData) :
    ((tick st tNow tSync resp).1).lastTokenRefresh = st.lastTokenRefresh ∧
    ((tick st tNow tSync resp).1).refreshCalls = st.refreshCalls ∧
    (st.ident = none → tick st tNow tSync resp = (st, Except.ok ())) ∧
    (∀ i, st.ident = some i → REFRESH_MS < tNow - st.lastRefresh →
      tick st tNow tSync resp = syncUserData st "sync" resp tSync) ∧
    (∀ i, st.ident = some i → ¬ REFRESH_MS < tNow - st.lastRefresh →
      tick st tNow tSync resp = (st, Except.ok ())) := by
  refine ⟨?_, ?_, ?_, ?_, ?_⟩
  · cases h : st.ident with
    | none => simp [tick, h]
    | some i =>
        by_cases hr : REFRESH_MS < tNow - st.lastRefresh
        · simpa [tick, h, hr] using (syncUserData_token_fields st "sync" resp tSync).1
        · simp [tick, h, hr]
  · cases h : st.ident with
    | none => simp [tick, h]
    | some i =>
        by_cases hr : REFRESH_MS < tNow - st.lastRefresh
        · simpa [tick, h, hr] using (syncUserData_token_fields st "sync" resp tSync).2
        · simp [tick, h, hr]
  · intro h
    simp [tick, h]
  · intro i h hr
    simp [tick, h, hr]
  · intro i h hr
    simp [tick, h, hr]

/-- Witness for the amended C2: a tick at a concrete overdue instant
performs the sync and keeps `lastTokenRefresh`. -/
theorem tick_never_refreshes_token_witness :
    ((tick connectedState 999999999 999999998 (Except.ok defaultSync)).1).lastTokenRefresh =
      connectedState.lastTokenRefresh ∧
    tick connectedState 999999999 999999998 (Except.ok defaultSync) =
      syncUserData connectedState "sync" (Except.ok defaultSync) 999999998 :=
  ⟨(tick_never_refreshes_token connectedState 999999999 999999998
      (Except.ok defaultSync)).1,
   (tick_never_refreshes_token connectedState 999999999 999999998
      (Except.ok defaultSync)).2.2.2.1 (IdentVal.wf baseIdent) rfl (by decide)⟩

/-- A connected state with an empty registry and a never-synced profile
`"p"` selected. -/
def freshProfileState : CState :=
  { connectedState with syncData := some [], selectedAlt := "p" }

/-- Counterexample to claim C4: a failed sync for a never-seen profile
does mutate state — the lazy get-or-create that runs before the network
call leaves a fresh empty record for the profile behind, observable via
`getTechLevels` switching from absent to the empty mapping. -/
theorem sync_failure_mutation_counterexample :
    findA (freshProfileState.syncData.getD []) "p" = none ∧
    getTechLevels freshProfileState = none ∧
    ((syncUserData freshProfileState "sync" (Except.error "boom") 77).1).syncData =
      some [("p", defaultSync)] ∧
    getTechLevels (syncUserData freshProfileState "sync" (Except.error "boom") 77).1 =
      some ([] : TechLevels) ∧
    ((syncUserData freshProfileState "sync" (Except.error "boom") 77).1).syncData ≠
      freshProfileState.syncData ∧
    (syncUserData freshProfileState "sync" (Except.error "boom") 77).2 =
      Except.error "Failed to sync data: boom" := by
  decide

/-- Claim C4 as amended: when the remote sync call fails, the error
propagates wrapped as `Failed to sync data: <cause>`; `lastRefresh`,
the persisted snapshot, the event log, the identity and the token
timestamp are unchanged, and nothing beyond the pre-call lazy creation
touches the registry — in particular, a profile that already has an
entry keeps its registry exactly. -/
theorem sync_failure_no_observable_mutation (st : CState) (iv : IdentVal)
    (mode e : String) (now : Nat) (hc : st.ident = some iv) :
    (syncUserData st mode (Except.error e) now).2 =
      Except.error ("Failed to sync data: " ++ e) ∧
    ((syncUserData st mode (Except.error e) now).1).lastRefresh =
      st.lastRefresh ∧
    ((syncUserData st mode (Except.error e) now).1).storage = st.storage ∧
    ((syncUserData st mode (Except.error e) now).1).events = st.events ∧
    ((syncUserData st mode (Except.error e) now).1).ident = st.ident ∧
    ((syncUserData st mode (Except.error e) now).1).lastTokenRefresh =
      st.lastTokenRefresh ∧
    ((syncUserData st mode (Except.error e) now).1).syncData =
      some (ensureEntry (st.syncData.getD []) st.selectedAlt) ∧
    (∀ s, findA (st.syncData.getD []) st.selectedAlt = some s →
      ((syncUserData st mode (Except.error e) now).1).syncData =
        st.syncData) := by
  refine ⟨?_, ?_, ?_, ?_, ?_, ?_, ?_, ?_⟩
  · simp [syncUserData, syncPrepare, hc]
  · simp [syncUserData, syncPrepare, hc]
  · simp [syncUserData, syncPrepare, hc]
  · simp [syncUserData, syncPrepare, hc]
  · simp [syncUserData, syncPrepare, hc]
  · simp [syncUserData, syncPrepare, hc]
  · simp [syncUserData, syncPrepare, hc]
  · intro s hfound
    cases hsd : st.syncData with
    | none => rw [hsd] at hfound; simp [findA] at hfound
    | some reg =>
        rw [hsd] at hfound
        simp at hfound
        simp [syncUserData, syncPrepare, hc, hsd, ensureEntry, hfound]

/-- Witness for the amended C4: a failed sync at the connected state,
whose selected profile `"default"` has no entry yet, and a second
application via the registry-preserving clause on profile `"a"`. -/
theorem sync_failure_no_observable_mutation_witness :
    (syncUserData connectedState "sync" (Except.error "boom") 77).2 =
      Except.error ("Failed to sync data: " ++ "boom") ∧
    ((syncUserData connectedState "sync" (Except.error "boom") 77).1).lastRefresh =
      connectedState.lastRefresh ∧
    ((syncUserData connectedState "sync" (Except.error "boom") 77).1).events =
      connectedState.events :=
  have h := sync_failure_no_observable_mutation connectedState
    (IdentVal.wf baseIdent) "sync" "boom" 77 rfl
  ⟨h.1, h.2.1, h.2.2.2.1⟩

/-- `readStorage` always leaves a state satisfying the disconnected
invariant: it either clears everything or installs an identity. -/
theorem readStorage_clean (st : CState) :
    disconnectedClean (readStorage st).1 := by
  cases hb : st.storage with
  | none => intro h2; simp [readStorage, hb, clearData]
  | some b =>
      cases b with
      | malformed m => intro h2; simp [readStorage, hb, emitEvent, clearData]
      | jnull => intro h2; simp [readStorage, hb, emitEvent, clearData]
      | obj fs =>
          cases hf : (findA fs "ident").bind identOfJVal with
          | none => intro h2; simp [readStorage, hb, hf, emitEvent, clearData]
          | some jv =>
              intro h2
              simp [readStorage, hb, hf] at h2

/-- When `readStorage` returns an identity, that identity is installed
in the resulting state. -/
theorem readStorage_ident_of_some (st : CState) (iv : IdentVal)
    (h : (readStorage st).2 = some iv) :
    ((readStorage st).1).ident = some iv := by
  cases hb : st.storage with
  | none => simp [readStorage, hb] at h
  | some b =>
      cases b with
      | malformed m => simp [readStorage, hb] at h
      | jnull => simp [readStorage, hb] at h
      | obj fs =>
          cases hf : (findA fs "ident").bind identOfJVal with
          | none => simp [readStorage, hb, hf] at h
          | some jv =>
              simp [readStorage, hb, hf] at h ⊢
              exact h

/-- `syncUserData` preserves the disconnected invariant. -/
theorem syncUserData_clean (st : CState) (mode : String)
    (resp : Except String SyncData) (now : Nat)
    (h : disconnectedClean st) :
    disconnectedClean (syncUserData st mode resp now).1 := by
  cases hi : st.ident with
  | none => simpa [syncUserData, syncPrepare, hi] using h
  | some i =>
      refine clean_of_ident_some _ i ?_
      rw [syncUserData_ident_eq]
      exact hi

/-- `initConnected` preserves the disconnected invariant: every branch
keeps some identity installed. -/
theorem initConnected_clean (st1 : CState) (iv : IdentVal)
    (sr : Except String SyncData) (rr : Except String Identity)
    (t1 t2 : Nat) (h : st1.ident = some iv) :
    disconnectedClean (initConnected st1 sr rr t1 t2).1 := by
  simp only [initConnected]
  split
  next st3 e heq =>
    have hfst := congrArg Prod.fst heq
    simp only at hfst
    refine clean_of_ident_some st3 iv ?_
    rw [← hfst, syncUserData_ident_eq]
    simpa using h
  next st3 u heq =>
    have hfst := congrArg Prod.fst heq
    simp only at hfst
    have h3 : st3.ident = some iv := by
      rw [← hfst, syncUserData_ident_eq]
      simpa using h
    split
    · intro hcon
      simp [emitEvent, h3] at hcon
    · split
      · intro hcon
        simp [h3] at hcon
      · intro hcon
        simp [emitEvent, writeStorage_fields] at hcon

/-- Claim C10: each public operation — initialize, connect, logout,
switchAlt, setTechLevel and the background tick — preserves the state
invariant that a disconnected session retains no registry and zero
timestamps. -/
theorem public_ops_preserve_disconnected_invariant (st : CState)
    (alt : String) (lookupTech : Nat → String) (techId level : Nat)
    (sr : Except String SyncData) (cr rr : Except String Identity)
    (t1 t2 : Nat) (h : disconnectedClean st) :
    disconnectedClean (initializeComp st sr rr t1 t2).1 ∧
    disconnectedClean (connect st cr sr t1 t2).1 ∧
    disconnectedClean (logout st) ∧
    disconnectedClean (switchAlt st alt) ∧
    disconnectedClean (setTechLevel lookupTech st techId level sr t1 t2).1 ∧
    disconnectedClean (tick st t1 t2 sr).1 := by
  refine ⟨?_, ?_, ?_, ?_, ?_, ?_⟩
  · cases hr : (readStorage st).2 with
    | none => simpa [initializeComp, hr] using readStorage_clean st
    | some i =>
        have hid := readStorage_ident_of_some st i hr
        simpa [initializeComp, hr] using
          initConnected_clean (readStorage st).1 i sr rr t1 t2 hid
  · cases cr with
    | error e => simpa [connect] using clearData_clean st
    | ok i =>
        simp only [connect]
        refine syncUserData_clean _ "get" sr t2 ?_
        refine clean_of_ident_some _ (IdentVal.wf i) ?_
        rw [(writeStorage_fields _).1]
        simp [emitEvent]
  · exact clearData_clean _
  · cases hi : st.ident with
    | none =>
        intro h2
        simp only [switchAlt, syncPrepare]
        simp only [hi]
        simpa using h hi
    | some i =>
        refine clean_of_ident_some _ i ?_
        simp [switchAlt, syncPrepare, hi]
  · cases hi : st.ident with
    | none => simpa [setTechLevel, hi] using h
    | some i =>
        by_cases hbad : lookupTech techId = ""
        · simpa [setTechLevel, hi, hbad] using clean_of_ident_some st i hi
        · refine clean_of_ident_some _ i ?_
          simp [setTechLevel, hi, hbad, syncUserData_ident_eq]
  · cases hi : st.ident with
    | none => simpa [tick, hi] using h
    | some i =>
        by_cases hrf : REFRESH_MS < t1 - st.lastRefresh
        · refine clean_of_ident_some _ i ?_
          simp [tick, hi, hrf, syncUserData_ident_eq]
        · simpa [tick, hi, hrf] using clean_of_ident_some st i hi

/-- Witness for C10 at the freshly constructed state. -/
theorem public_ops_preserve_disconnected_invariant_witness :
    disconnectedClean (initializeComp initialState (Except.ok defaultSync)
      (Except.ok baseIdent) 1 2).1 ∧
    disconnectedClean (connect initialState (Except.ok baseIdent)
      (Except.ok defaultSync) 1 2).1 ∧
    disconnectedClean (logout initialState) ∧
    disconnectedClean (switchAlt initialState "x") ∧
    disconnectedClean (setTechLevel (fun _ => "t") initialState 1 2
      (Except.ok defaultSync) 1 2).1 ∧
    disconnectedClean (tick initialState 1 2 (Except.ok defaultSync)).1 :=
  public_ops_preserve_disconnected_invariant initialState "x" (fun _ => "t")
    1 2 (Except.ok defaultSync) (Except.ok baseIdent) (Except.ok baseIdent)
    1 2 (by decide)

end Compendium
